import Mathlib

/-!
Verification of the audio admission, quality-gating and ensemble decision
pipeline of the Audio-Categorization repository.

The definitions below are shallow embeddings of the Python sources:
 - `compute_qc_metrics`, `is_insufficient_signal`  from  src/services/qc.py
 - `insufficient_signal_response`, `voice_detection_core`, `verify_api_key`,
   `get_api_keys`  from  src/platform_services.py and src/config.py
 - `get_audio_windows`, `apply_ensemble_heuristics`, `predict_demo`
   from  src/detectors/aasist_detector.py

Real numbers produced by the Python code are modelled as exact rationals;
`np.sqrt` (an external numeric primitive whose result is irrational in
general) is passed in as an abstract function parameter where it occurs.
Python's `round(x, 2)` (round half to even) is modelled by `round2`.
The Python field names `silence_ratio` / `clipping_ratio` are rendered as
`silence_fraction` / `clipping_fraction`.
-/

/-- Classification labels, from src/detectors/base.py. -/
inductive Classification where
  | AI_GENERATED
  | HUMAN
deriving DecidableEq, Repr

/-- QC metrics record, from src/services/qc.py `compute_qc_metrics`.
Fields mirror the Python dict keys `duration_seconds`, `rms`,
`silence_ratio`, `clipping_ratio`. -/
structure QCMetrics where
  duration_seconds : ℚ
  rms : ℚ
  silence_fraction : ℚ
  clipping_fraction : ℚ
deriving DecidableEq, Repr

/-- Result of a detector prediction, from src/detectors/base.py. -/
structure PredictionResult where
  classification : Classification
  confidenceScore : ℚ
  explanation : String
deriving DecidableEq, Repr

/-- Success response body, from src/base_requests.py
`VoiceDetectionSuccessResponse` (the constant `status` field is omitted). -/
structure SuccessResponse where
  language : String
  classification : Classification
  confidenceScore : ℚ
  explanation : String
deriving DecidableEq, Repr

/-- The function `compute_qc_metrics` from src/services/qc.py.  The square root used for
the RMS is `np.sqrt`, modelled as the abstract parameter `sqrt`; every other
quantity is computed exactly as in the source. -/
def compute_qc_metrics (sqrt : ℚ → ℚ) (waveform : List ℚ) (sr : ℕ) : QCMetrics :=
  if waveform.length = 0 then
    { duration_seconds := 0
      rms := 0
      silence_fraction := 1
      clipping_fraction := 0 }
  else
    let n : ℚ := waveform.length
    let duration_seconds : ℚ := n / (sr : ℚ)
    let rms : ℚ := sqrt ((waveform.map (fun x => x * x)).sum / n)
    let silent_samples : ℕ := (waveform.filter (fun x => |x| < 1/100)).length
    let clipped_samples : ℕ := (waveform.filter (fun x => |x| > 99/100)).length
    { duration_seconds := duration_seconds
      rms := rms
      silence_fraction := (silent_samples : ℚ) / n
      clipping_fraction := (clipped_samples : ℚ) / n }

/-- The admission gate `is_insufficient_signal` from src/services/qc.py: too short, or too much
silence.  The parameter `silence_threshold` is the source's
`silence_ratio_threshold`. -/
def is_insufficient_signal (qc : QCMetrics)
    (min_duration_seconds silence_threshold : ℚ) : Bool :=
  if qc.duration_seconds < min_duration_seconds then
    true
  else if qc.silence_fraction ≥ silence_threshold then
    true
  else
    false

/-- Round a rational to the nearest integer, halves to even: the behaviour of
Python's builtin `round` on exact values. -/
def round_half_even (x : ℚ) : ℤ :=
  if x - (⌊x⌋ : ℚ) < 1/2 then ⌊x⌋
  else if x - (⌊x⌋ : ℚ) > 1/2 then ⌊x⌋ + 1
  else if ⌊x⌋ % 2 = 0 then ⌊x⌋ else ⌊x⌋ + 1

/-- Python's `round(x, 2)`. -/
def round2 (x : ℚ) : ℚ := ((round_half_even (x * 100) : ℤ) : ℚ) / 100

/-- Left-pad a two-digit numeral with a zero. -/
def natPad2 (n : ℕ) : String := if n < 10 then "0" ++ toString n else toString n

/-- Python's fixed-point formatting `f"{x:.2f}"` for non-negative values. -/
def formatFixed2 (x : ℚ) : String :=
  let c : ℕ := (round_half_even (x * 100)).toNat
  toString (c / 100) ++ "." ++ natPad2 (c % 100)

/-- Python's fixed-point formatting `f"{x:.0f}"`. -/
def formatFixed0 (x : ℚ) : String := toString (round_half_even x)

/-- Default `Settings.MIN_DURATION_SECONDS` from src/config.py. -/
def MIN_DURATION_SECONDS : ℚ := 1/2

/-- Default `Settings.SILENCE_RATIO_THRESHOLD` from src/config.py. -/
def SILENCE_THRESHOLD : ℚ := 4/5

/-- Default `Settings.AASIST_THRESHOLD` from src/config.py. -/
def AASIST_THRESHOLD : ℚ := 1/2

/-- Default `Settings.AASIST_MAX_WINDOWS` from src/config.py. -/
def AASIST_MAX_WINDOWS : ℕ := 3

/-- The low-confidence response built by the insufficient-signal branch of
`voice_detection` in src/platform_services.py (lines 174-199): HUMAN, with
`confidenceScore = round(0.50 + rms * 0.5, 2)` and an explanation naming the
failing condition. -/
def insufficient_signal_response (language : String) (qc : QCMetrics)
    (min_duration_seconds : ℚ) : SuccessResponse :=
  let explanation : String :=
    "Insufficient audio signal for reliable detection. " ++
      (if qc.duration_seconds < min_duration_seconds then
        "Audio too short (" ++ formatFixed2 qc.duration_seconds ++ "s)."
      else
        "High silence ratio (" ++ formatFixed0 (qc.silence_fraction * 100) ++ "%).")
  { language := language
    classification := Classification.HUMAN
    confidenceScore := round2 (50/100 + qc.rms * (5/10))
    explanation := explanation }

/-- The QC-gating core of the `voice_detection` orchestrator
(src/platform_services.py, steps 7-8): when the admission gate fires, the
fixed low-confidence response is returned and the detector is NOT invoked;
otherwise `detector.predict` is called and its result is returned with the
confidence rounded to two decimals.  The second component of the result
records whether the detector was invoked. -/
def voice_detection_core (predict : String → QCMetrics → PredictionResult)
    (min_duration_seconds silence_threshold : ℚ)
    (language : String) (qc : QCMetrics) : SuccessResponse × Bool :=
  if is_insufficient_signal qc min_duration_seconds silence_threshold then
    (insufficient_signal_response language qc min_duration_seconds, false)
  else
    let result := predict language qc
    ({ language := language
       classification := result.classification
       confidenceScore := round2 result.confidenceScore
       explanation := result.explanation }, true)

/-- Clamp into the unit interval: the `max(0.0, min(1.0, confidence))` step of
`_apply_ensemble_heuristics` in src/detectors/aasist_detector.py. -/
def clamp01 (x : ℚ) : ℚ := max 0 (min 1 x)

/-- Truncation of explanations to 200 characters as in
src/detectors/aasist_detector.py (and `PredictionResult.__post_init__`). -/
def truncate200 (s : String) : String :=
  if s.length > 200 then (s.take 197) ++ "..." else s

/-- The decision engine `_apply_ensemble_heuristics` from
src/detectors/aasist_detector.py (lines 220-301): the ordered five-pattern elif chain, followed by the
clamp of the confidence into [0,1] and the explanation build/truncation.
The intermediate triple is (is_fake, confidence, detected_pattern);
`language` is accepted but unused, as in the source. -/
def apply_ensemble_heuristics (orig_real orig_fake ft_real ft_fake : ℚ)
    (threshold : ℚ) (language : String) : PredictionResult :=
  let step : Bool × ℚ × String :=
    if orig_fake > 95/100 ∧ ft_real > 95/100 then
      (false, ft_real, "Indian REAL (inverted detection)")
    else if orig_fake < 15/100 ∧ ft_real > 80/100 then
      (true, 1 - orig_fake, "Indian FAKE (inverted detection)")
    else if orig_fake > 92/100 then
      (true, orig_fake, "English FAKE (direct detection)")
    else if orig_fake > 85/100 ∧ ft_real > 95/100 then
      (false, ft_real, "English REAL (threshold)")
    else if ft_real > 99/100 ∧ orig_fake < 91/100 then
      (false, ft_real, "Default REAL (fine-tuned confident)")
    else
      (decide (orig_fake > threshold),
        if orig_fake > threshold then orig_fake else orig_real,
        "Default (weighted)")
  let _unused := (ft_fake, language)
  { classification :=
      if step.1 then Classification.AI_GENERATED else Classification.HUMAN
    confidenceScore := clamp01 step.2.1
    explanation :=
      truncate200 ("Ensemble: " ++ step.2.2 ++ ". Orig(fake=" ++
        formatFixed0 (orig_fake * 100) ++ "%), FT(real=" ++
        formatFixed0 (ft_real * 100) ++ "%)") }

/-- The ensemble decision table exactly as the specification words it: an
ordered, first-match-wins list of rules on the aggregated scores, returning
the classification and the (pre-clamp) confidence. -/
def ensemble_decision_table (orig_real orig_fake ft_real ft_fake : ℚ)
    (threshold : ℚ) : Classification × ℚ :=
  let _unused := ft_fake
  if orig_fake > 95/100 ∧ ft_real > 95/100 then
    (Classification.HUMAN, ft_real)
  else if orig_fake < 15/100 ∧ ft_real > 80/100 then
    (Classification.AI_GENERATED, 1 - orig_fake)
  else if orig_fake > 92/100 then
    (Classification.AI_GENERATED, orig_fake)
  else if orig_fake > 85/100 ∧ ft_real > 95/100 then
    (Classification.HUMAN, ft_real)
  else if ft_real > 99/100 ∧ orig_fake < 91/100 then
    (Classification.HUMAN, ft_real)
  else if orig_fake > threshold then
    (Classification.AI_GENERATED, orig_fake)
  else
    (Classification.HUMAN, orig_real)

/-- Numpy tiling `np.tile(waveform, n)`: `n` concatenated copies of the list. -/
def tile (waveform : List ℚ) (n : ℕ) : List ℚ :=
  (List.replicate n waveform).flatten

/-- The window count chosen for long audio in `_get_audio_windows`
(src/detectors/aasist_detector.py): `n_windows = min(max_windows,
total_len // nb_samp)` then `n_windows = max(1, n_windows)`. -/
def n_windows (total_len nb_samp max_windows : ℕ) : ℕ :=
  max 1 (min max_windows (total_len / nb_samp))

/-- The window stride for long audio in `_get_audio_windows`:
`(total_len - nb_samp) // max(1, n_windows - 1)` when `n_windows > 1`,
else 0. -/
def win_step (total_len nb_samp max_windows : ℕ) : ℕ :=
  if 1 < n_windows total_len nb_samp max_windows then
    (total_len - nb_samp) / (max 1 (n_windows total_len nb_samp max_windows - 1))
  else 0

/-- The window sampler `_get_audio_windows` from
src/detectors/aasist_detector.py (lines 179-218), parametrised by the fixed model input length `nb_samp`
(64600 in the source) and `settings.AASIST_MAX_WINDOWS`.  The result is
`none` exactly where the Python raises: on a zero-length waveform the tiling
branch evaluates `nb_samp / len(waveform)` and dies with ZeroDivisionError.
`int(np.ceil(nb_samp / len))` is the exact ceiling `(nb_samp + len - 1) / len`. -/
def get_audio_windows (waveform : List ℚ) (nb_samp max_windows : ℕ) :
    Option (List (List ℚ)) :=
  if waveform.length ≤ nb_samp then
    if nb_samp ≤ waveform.length then
      some [waveform.take nb_samp]
    else if waveform.length = 0 then
      none
    else
      let num_repeats := (nb_samp + waveform.length - 1) / waveform.length
      some [(tile waveform num_repeats).take nb_samp]
  else
    let total_len := waveform.length
    let n := n_windows total_len nb_samp max_windows
    let step := win_step total_len nb_samp max_windows
    let windows := (List.range n).filterMap (fun i =>
      if i * step + nb_samp ≤ total_len then
        some ((waveform.drop (i * step)).take nb_samp)
      else
        none)
    some (if windows.isEmpty then [waveform.take nb_samp] else windows)

/-- Lowercasing of a string, character by character: the model of Python's
`str.lower()` used by the API-key check. -/
def str_lower (s : String) : String := String.mk (s.data.map Char.toLower)

/-- Python's `str.split(",")` on the character list of a string: splitting
on every comma, keeping empty segments (so the empty input gives one empty
segment, as in Python). -/
def split_commas : List Char → List (List Char)
  | [] => [[]]
  | c :: rest =>
    match split_commas rest with
    | [] => [[]]
    | g :: gs => if c = ',' then [] :: g :: gs else (c :: g) :: gs

/-- Python's `str.strip()`: drop leading and trailing whitespace. -/
def trim_chars (cs : List Char) : List Char :=
  ((cs.dropWhile Char.isWhitespace).reverse.dropWhile Char.isWhitespace).reverse

/-- The allow-list parser `Settings.get_api_keys` from src/config.py: split the configured
comma-separated `VOICE_API_KEYS` value on commas, strip whitespace from each
entry, and drop entries that strip to nothing; an unset (empty) value yields
the empty list. -/
def get_api_keys (voice_api_keys : String) : List String :=
  if voice_api_keys = "" then []
  else (((split_commas voice_api_keys.data).map trim_chars).map String.mk).filter
    (fun k => k ≠ "")

/-- Outcome of `verify_api_key` in src/platform_services.py.  The first
three constructors are the three distinct 401 rejections raised there
(missing key, empty allow-list, key not in the allow-list); `authorized`
is the successful return of the key. -/
inductive AuthResult where
  | missingKey
  | notConfigured
  | invalidKey
  | authorized (key : String)
deriving DecidableEq, Repr

/-- The function `verify_api_key` from src/platform_services.py (lines 48-91): reject a
missing or empty header, reject everything when no keys are configured,
otherwise accept exactly when the lowercased presented key equals the
lowercase of some configured key (the source's constant-time
`hmac.compare_digest` loop is equality on the lowercased strings). -/
def verify_api_key (api_key : Option String) (valid_keys : List String) :
    AuthResult :=
  match api_key with
  | none => AuthResult.missingKey
  | some k =>
    if k = "" then AuthResult.missingKey
    else if valid_keys = [] then AuthResult.notConfigured
    else if valid_keys.any (fun v => str_lower k = str_lower v) then
      AuthResult.authorized k
    else
      AuthResult.invalidKey

/-- The demo-mode fallback `_predict_demo` from src/detectors/aasist_detector.py
(lines 303-332).
Python's Mersenne-Twister stream is modelled by the abstract parameter
`gen`, mapping the seed and the index of the draw to a value in [0,1);
`random.seed(int(rms * 10000))` derives the seed by truncating toward zero,
`random.random()` is draw 0 and `random.uniform(a, b) = a + (b - a) * u`
is draw 1. -/
def predict_demo (gen : ℤ → ℕ → ℚ) (language : String) (qc : QCMetrics) :
    PredictionResult :=
  let rms := qc.rms
  let seed : ℤ := Rat.num (rms * 10000) / (Rat.den (rms * 10000) : ℤ)
  let is_ai := gen seed 0 > 1/2
  if is_ai then
    { classification := Classification.AI_GENERATED
      confidenceScore := round2 (70/100 + (92/100 - 70/100) * gen seed 1)
      explanation := "[DEMO] Detected synthetic speech patterns in " ++ language ++
        " audio. Models not loaded - using dummy response." }
  else
    { classification := Classification.HUMAN
      confidenceScore := round2 (68/100 + (90/100 - 68/100) * gen seed 1)
      explanation := "[DEMO] Natural speech patterns in " ++ language ++
        " audio. Models not loaded - using dummy response." }

/-- A concrete pseudo-random stream used to instantiate `predict_demo`. -/
def demoGen : ℤ → ℕ → ℚ := fun _ _ => 0

/-- A concrete seven-sample waveform used to instantiate the long-audio
window theorems. -/
def waveform7 : List ℚ := [0, 1, 2, 3, 4, 5, 6]

/-- Clamping is the identity on the unit interval. -/
theorem clamp01_eq_self {x : ℚ} (h0 : 0 ≤ x) (h1 : x ≤ 1) : clamp01 x = x := by
  unfold clamp01
  rw [min_eq_right h1, max_eq_right h0]

/-- C5: `is_insufficient_signal` returns `true` exactly when the duration is
below the minimum or the silence fraction reaches the threshold; being a total
Lean function of its three arguments, it never fails on any input. -/
theorem is_insufficient_signal_iff (qc : QCMetrics)
    (min_duration_seconds silence_threshold : ℚ) :
    is_insufficient_signal qc min_duration_seconds silence_threshold = true ↔
      qc.duration_seconds < min_duration_seconds ∨
        qc.silence_fraction ≥ silence_threshold := by
  unfold is_insufficient_signal
  split_ifs with h1 h2 <;> simp_all

/-- C7: on the zero-length waveform, `compute_qc_metrics` returns duration 0,
rms 0, silence fraction 1 and clipping fraction 0, for any sample rate and
any square-root primitive, without ever reaching the numeric code. -/
theorem compute_qc_metrics_empty (sqrt : ℚ → ℚ) (sr : ℕ) :
    compute_qc_metrics sqrt [] sr =
      { duration_seconds := 0, rms := 0, silence_fraction := 1, clipping_fraction := 0 } :=
  rfl

/-- C6: for every combination of aggregated scores and every threshold, the
confidence returned by the ensemble decision engine lies in [0,1], because it
is clamped before the result is built. -/
theorem ensemble_confidence_in_unit_interval
    (orig_real orig_fake ft_real ft_fake threshold : ℚ) (language : String) :
    0 ≤ (apply_ensemble_heuristics orig_real orig_fake ft_real ft_fake
          threshold language).confidenceScore ∧
      (apply_ensemble_heuristics orig_real orig_fake ft_real ft_fake
          threshold language).confidenceScore ≤ 1 := by
  constructor
  · show 0 ≤ max 0 _
    exact le_max_left 0 _
  · show max 0 (min 1 _) ≤ 1
    exact max_le (by norm_num) (min_le_left 1 _)

/-- C2: under the (always true for softmax-derived scores) assumption that
the aggregated probabilities lie in [0,1], the ensemble decision engine is
exactly the ordered first-match-wins decision table of the specification:
classification and confidence agree with `ensemble_decision_table` on every
input. -/
theorem ensemble_matches_decision_table
    (orig_real orig_fake ft_real ft_fake threshold : ℚ) (language : String)
    (hor0 : 0 ≤ orig_real) (hor1 : orig_real ≤ 1)
    (hof0 : 0 ≤ orig_fake) (hof1 : orig_fake ≤ 1)
    (hfr0 : 0 ≤ ft_real) (hfr1 : ft_real ≤ 1) :
    (apply_ensemble_heuristics orig_real orig_fake ft_real ft_fake
        threshold language).classification =
      (ensemble_decision_table orig_real orig_fake ft_real ft_fake threshold).1 ∧
    (apply_ensemble_heuristics orig_real orig_fake ft_real ft_fake
        threshold language).confidenceScore =
      (ensemble_decision_table orig_real orig_fake ft_real ft_fake threshold).2 := by
  unfold apply_ensemble_heuristics ensemble_decision_table
  split_ifs with h1 h2 h3 h4 h5 h6 <;>
    refine ⟨?_, ?_⟩ <;>
    first
      | rfl
      | ((apply clamp01_eq_self) <;> (dsimp only) <;> linarith)
      | (simp [h6])

/-- A closed instance of C2's theorem: rule 1 fires at
orig.fake = 0.97, ft.real = 0.97 and the engine agrees with the table. -/
theorem ensemble_matches_decision_table_witness :
    (apply_ensemble_heuristics (3/100) (97/100) (97/100) (3/100)
        (1/2) "Tamil").classification =
      (ensemble_decision_table (3/100) (97/100) (97/100) (3/100) (1/2)).1 ∧
    (apply_ensemble_heuristics (3/100) (97/100) (97/100) (3/100)
        (1/2) "Tamil").confidenceScore =
      (ensemble_decision_table (3/100) (97/100) (97/100) (3/100) (1/2)).2 :=
  ensemble_matches_decision_table (3/100) (97/100) (97/100) (3/100) (1/2) "Tamil"
    (by norm_num) (by norm_num) (by norm_num) (by norm_num) (by norm_num) (by norm_num)

/-- C1: the code-level behaviour of the insufficient-signal branch at a
failing input.  For QC metrics with duration 0.3 s (below the 0.5 s minimum)
and rms 0.9, the orchestrator returns HUMAN without invoking the detector
(the flag is `false` and the response does not depend on `predict`), with the
duration-naming explanation — but the confidence is 0.95, not clamped into
[0.50, 0.55]: the source computes `round(0.50 + rms * 0.5, 2)` with no clamp,
contradicting its own `# 0.50-0.55 range` comment and the specification. -/
theorem insufficient_branch_unclamped
    (predict : String → QCMetrics → PredictionResult) :
    voice_detection_core predict MIN_DURATION_SECONDS SILENCE_THRESHOLD "English"
        { duration_seconds := 3/10, rms := 9/10
          silence_fraction := 0, clipping_fraction := 0 } =
      ({ language := "English"
         classification := Classification.HUMAN
         confidenceScore := 19/20
         explanation := "Insufficient audio signal for reliable detection. Audio too short (0.30s)." },
        false) ∧ ¬ ((19 : ℚ)/20 ≤ 55/100) := by
  constructor
  · norm_num [voice_detection_core, is_insufficient_signal,
      insufficient_signal_response, MIN_DURATION_SECONDS, SILENCE_THRESHOLD,
      round2, round_half_even, formatFixed2, natPad2]
    rfl
  · norm_num

/-- C9: the demo/degraded prediction is a function of the pseudo-random
stream, the language and the rms alone: two QC records with the same rms
produce identical classification, confidence and explanation. -/
theorem predict_demo_deterministic_in_rms (gen : ℤ → ℕ → ℚ)
    (language : String) (qc qc' : QCMetrics) (h : qc.rms = qc'.rms) :
    predict_demo gen language qc = predict_demo gen language qc' := by
  unfold predict_demo
  rw [h]

/-- A closed instance of C9's theorem: two QC records differing everywhere
but in rms yield the same demo prediction. -/
theorem predict_demo_deterministic_in_rms_witness :
    predict_demo demoGen "Hindi"
        { duration_seconds := 1, rms := 1/10
          silence_fraction := 0, clipping_fraction := 0 } =
      predict_demo demoGen "Hindi"
        { duration_seconds := 7, rms := 1/10
          silence_fraction := 1, clipping_fraction := 1 } :=
  predict_demo_deterministic_in_rms demoGen "Hindi"
    { duration_seconds := 1, rms := 1/10
      silence_fraction := 0, clipping_fraction := 0 }
    { duration_seconds := 7, rms := 1/10
      silence_fraction := 1, clipping_fraction := 1 } rfl

/-- Lowercasing preserves (non-)emptiness of a string. -/
theorem str_lower_eq_empty_iff (s : String) : str_lower s = "" ↔ s = "" := by
  unfold str_lower
  constructor
  · intro h
    have hd : s.data.map Char.toLower = [] := congrArg String.data h
    have hnil : s.data = [] := List.map_eq_nil_iff.mp hd
    cases s
    simp_all
  · intro h
    subst h
    rfl

/-- Every entry of the parsed allow-list is a non-empty string. -/
theorem get_api_keys_ne_empty_entry (raw : String) (v : String)
    (hv : v ∈ get_api_keys raw) : v ≠ "" := by
  unfold get_api_keys at hv
  split_ifs at hv with h
  · cases hv
  · simpa using (List.mem_filter.mp hv).2

/-- C8: with an empty configured allow-list, `verify_api_key` never returns
`authorized`, whatever key is presented; with a non-empty allow-list, a
presented key is authorized exactly when its lowercase form equals the
lowercase form of some configured key.  The three rejections are surfaced as
`AuthResult` constructors distinct from `authorized`. -/
theorem verify_api_key_correct (raw : String) (api_key : Option String) (k : String) :
    (get_api_keys raw = [] →
        verify_api_key api_key (get_api_keys raw) ≠ AuthResult.authorized k) ∧
    (get_api_keys raw ≠ [] →
      (verify_api_key (some k) (get_api_keys raw) = AuthResult.authorized k ↔
        ∃ v ∈ get_api_keys raw, str_lower k = str_lower v)) := by
  constructor
  · intro he
    unfold verify_api_key
    match api_key with
    | none => simp
    | some k2 =>
      by_cases h2 : k2 = ""
      · simp [h2]
      · rw [he]
        simp [h2]
  · intro hne
    unfold verify_api_key
    dsimp only
    by_cases hk : k = ""
    · rw [if_pos hk]
      constructor
      · intro h
        cases h
      · rintro ⟨v, hv, hl⟩
        exfalso
        apply get_api_keys_ne_empty_entry raw v hv
        rw [← str_lower_eq_empty_iff]
        rw [← hl, hk]
        rfl
    · rw [if_neg hk, if_neg hne]
      by_cases hany :
          ((get_api_keys raw).any fun v => decide (str_lower k = str_lower v)) = true
      · rw [if_pos hany]
        simp only [List.any_eq_true, decide_eq_true_eq] at hany
        simpa using hany
      · rw [if_neg hany]
        constructor
        · intro h
          cases h
        · rintro ⟨v, hv, hl⟩
          exfalso
          apply hany
          rw [List.any_eq_true]
          exact ⟨v, hv, by simp [hl]⟩

/-- A closed instance of C8's theorem: the uppercase presentation of a
configured lowercase key is accepted. -/
theorem verify_api_key_correct_witness :
    verify_api_key (some "ABC") (get_api_keys "abc") = AuthResult.authorized "ABC" :=
  ((verify_api_key_correct "abc" (some "ABC") "ABC").2 (by decide)).mpr
    ⟨"abc", by decide, by decide⟩

/-- A `filterMap` whose function is a guarded `some` is a `filter` followed
by a `map`. -/
theorem filterMap_ite_eq_map_filter {α β : Type} (p : α → Prop) [DecidablePred p]
    (f : α → β) (l : List α) :
    (l.filterMap (fun a => if p a then some (f a) else none)) =
      (l.filter (fun a => decide (p a))).map f := by
  induction l with
  | nil => rfl
  | cons a t ih =>
    by_cases h : p a <;> simp [List.filterMap_cons, List.filter_cons, h, ih]

/-- The length of `np.tile(w, n)` is `n * len(w)`. -/
theorem tile_length (w : List ℚ) (n : ℕ) : (tile w n).length = n * w.length := by
  unfold tile
  simp [List.length_flatten, List.map_replicate, List.sum_replicate, smul_eq_mul]

/-- The ceiling division `(T + L - 1) / L`, multiplied back by `L`, reaches
`T`: tiling with `int(np.ceil(nb_samp / len))` repeats is long enough. -/
theorem ceil_mul_ge (T L : ℕ) (hL : 0 < L) : T ≤ (T + L - 1) / L * L := by
  have hdm := Nat.div_add_mod (T + L - 1) L
  have hmod : (T + L - 1) % L < L := Nat.mod_lt _ hL
  rw [mul_comm]
  omega

/-- C3 (amended): for every NON-EMPTY waveform, every `target_len ≥ 1` and
every `max_windows ≥ 1`, the window sampler returns (rather than raising) a
non-empty list of windows, each of length exactly `target_len`; determinism
in (waveform, target_len, max_windows) holds because the embedding is a pure
function of exactly those arguments.  The claim's original "any length L"
fails at the empty waveform, where the source raises ZeroDivisionError. -/
theorem get_audio_windows_nonempty_fixed_length (w : List ℚ) (T m : ℕ)
    (hw : w ≠ []) (hT : 1 ≤ T) (hm : 1 ≤ m) :
    ∃ ws, get_audio_windows w T m = some ws ∧ ws ≠ [] ∧
      ∀ win ∈ ws, win.length = T := by
  have hwlen : 0 < w.length := List.length_pos.mpr hw
  unfold get_audio_windows
  by_cases hle : w.length ≤ T
  · rw [if_pos hle]
    by_cases hge : T ≤ w.length
    · rw [if_pos hge]
      refine ⟨_, rfl, by simp, ?_⟩
      intro win hwin
      simp only [List.mem_singleton] at hwin
      subst hwin
      rw [List.length_take]
      omega
    · rw [if_neg hge, if_neg (by omega)]
      refine ⟨_, rfl, by simp, ?_⟩
      intro win hwin
      simp only [List.mem_singleton] at hwin
      subst hwin
      rw [List.length_take, tile_length]
      have := ceil_mul_ge T w.length hwlen
      omega
  · rw [if_neg hle]
    refine ⟨_, rfl, ?_, ?_⟩
    · split
      · simp
      · rename_i hemp
        intro hnil
        rw [hnil] at hemp
        simp at hemp
    · intro win hwin
      split at hwin
      · simp only [List.mem_singleton] at hwin
        subst hwin
        rw [List.length_take]
        omega
      · rcases List.mem_filterMap.mp hwin with ⟨i, hi, heq⟩
        split at heq
        · rename_i hcond
          cases heq
          rw [List.length_take, List.length_drop]
          omega
        · cases heq

/-- Counterexample to C3 as stated: on the zero-length waveform (with the
source's `nb_samp = 64600` and `max_windows = 3`) the sampler does not
return a sequence of windows at all — the embedded `none` is the source's
ZeroDivisionError in `int(np.ceil(nb_samp / len(waveform)))`. -/
theorem get_audio_windows_empty_input :
    get_audio_windows [] 64600 3 = none := rfl

/-- C10: in the long-audio branch every candidate window fits — for every
`i < n_windows`, `i * step + target_len ≤ total_len` — so the drop condition
never fires, the fallback is unreachable, and exactly `n_windows` windows
are returned. -/
theorem long_audio_all_windows_kept (w : List ℚ) (T m : ℕ) (h : T < w.length) :
    (∀ i < n_windows w.length T m,
        i * win_step w.length T m + T ≤ w.length) ∧
    ∃ ws, get_audio_windows w T m = some ws ∧
      ws.length = n_windows w.length T m := by
  have hn1 : 1 ≤ n_windows w.length T m := le_max_left 1 _
  have hkey : ∀ i < n_windows w.length T m,
      i * win_step w.length T m + T ≤ w.length := by
    intro i hi
    unfold win_step
    split_ifs with h1
    · have hmax : max 1 (n_windows w.length T m - 1) =
          n_windows w.length T m - 1 := by omega
      rw [hmax]
      have h2 : i * ((w.length - T) / (n_windows w.length T m - 1)) ≤
          (n_windows w.length T m - 1) *
            ((w.length - T) / (n_windows w.length T m - 1)) :=
        Nat.mul_le_mul_right _ (by omega)
      have h3 : (n_windows w.length T m - 1) *
          ((w.length - T) / (n_windows w.length T m - 1)) ≤ w.length - T := by
        rw [mul_comm]
        exact Nat.div_mul_le_self _ _
      omega
    · omega
  refine ⟨hkey, ?_⟩
  have hmain : get_audio_windows w T m =
      some ((List.range (n_windows w.length T m)).map
        (fun i => (w.drop (i * win_step w.length T m)).take T)) := by
    unfold get_audio_windows
    rw [if_neg (by omega)]
    dsimp only
    rw [filterMap_ite_eq_map_filter
      (fun i => i * win_step w.length T m + T ≤ w.length)
      (fun i => (w.drop (i * win_step w.length T m)).take T)]
    rw [List.filter_eq_self.mpr]
    · rw [if_neg]
      intro hemp
      rw [List.isEmpty_iff] at hemp
      have : (List.range (n_windows w.length T m)).length = 0 := by
        rw [← List.length_map (List.range (n_windows w.length T m))
          (fun i => (w.drop (i * win_step w.length T m)).take T), hemp]
        rfl
      rw [List.length_range] at this
      omega
    · intro i hi
      simp only [decide_eq_true_eq]
      exact hkey i (List.mem_range.mp hi)
  exact ⟨_, hmain, by rw [List.length_map, List.length_range]⟩

/-- Branching on `isEmpty` is branching on equality with `[]`. -/
theorem ite_isEmpty_eq_ite_nil {α : Type} [DecidableEq α] (l a : List α) :
    (if l.isEmpty then a else l) = (if l = [] then a else l) := by
  cases l <;> simp

/-- C4: for every waveform longer than `target_len`, the sampler's result is
exactly the specification's formula: `n = max(1, min(max_windows,
floor(total_len / target_len)))` windows, `step = floor((total_len -
target_len) / max(1, n-1))` (0 when n = 1), window `i` starting at
`i * step` and spanning `target_len` samples, windows whose end exceeds
`total_len` dropped, and a single leading window as fallback were the list
empty. -/
theorem get_audio_windows_long_formula (w : List ℚ) (T m : ℕ) (h : T < w.length) :
    get_audio_windows w T m =
      some (
        let L := w.length
        let n := max 1 (min m (L / T))
        let step := if n = 1 then 0 else (L - T) / (max 1 (n - 1))
        let kept := (List.range n).filter (fun i => decide (i * step + T ≤ L))
        let ws := kept.map (fun i => (w.drop (i * step)).take T)
        if ws = [] then [w.take T] else ws) := by
  have hn1 : 1 ≤ n_windows w.length T m := le_max_left 1 _
  have hstep : (if max 1 (min m (w.length / T)) = 1 then 0
      else (w.length - T) / (max 1 (max 1 (min m (w.length / T)) - 1))) =
      win_step w.length T m := by
    unfold win_step n_windows
    unfold n_windows at hn1
    by_cases h1 : max 1 (min m (w.length / T)) = 1
    · rw [if_pos h1, if_neg (by omega)]
    · rw [if_neg h1, if_pos (by omega)]
  unfold get_audio_windows
  rw [if_neg (by omega)]
  dsimp only
  rw [hstep]
  rw [filterMap_ite_eq_map_filter
    (fun i => i * win_step w.length T m + T ≤ w.length)
    (fun i => (w.drop (i * win_step w.length T m)).take T)]
  rw [ite_isEmpty_eq_ite_nil]
  rfl

/-- A closed instance of C3's amended theorem at a one-sample waveform with
`target_len = 3`, `max_windows = 2`. -/
theorem get_audio_windows_nonempty_fixed_length_witness :
    ∃ ws, get_audio_windows [1] 3 2 = some ws ∧ ws ≠ [] ∧
      ∀ win ∈ ws, win.length = 3 :=
  get_audio_windows_nonempty_fixed_length [1] 3 2 (by decide) (by decide) (by decide)

/-- A closed instance of C10's theorem at a seven-sample waveform with
`target_len = 2`, `max_windows = 3` (so `n_windows = 3`). -/
theorem long_audio_all_windows_kept_witness :
    (∀ i < n_windows waveform7.length 2 3,
        i * win_step waveform7.length 2 3 + 2 ≤ waveform7.length) ∧
    ∃ ws, get_audio_windows waveform7 2 3 = some ws ∧
      ws.length = n_windows waveform7.length 2 3 :=
  long_audio_all_windows_kept waveform7 2 3 (by decide)

/-- A closed instance of C4's theorem at a seven-sample waveform with
`target_len = 2`, `max_windows = 3`. -/
theorem get_audio_windows_long_formula_witness :
    get_audio_windows waveform7 2 3 =
      some (
        let L := waveform7.length
        let n := max 1 (min 3 (L / 2))
        let step := if n = 1 then 0 else (L - 2) / (max 1 (n - 1))
        let kept := (List.range n).filter (fun i => decide (i * step + 2 ≤ L))
        let ws := kept.map (fun i => (waveform7.drop (i * step)).take 2)
        if ws = [] then [waveform7.take 2] else ws) :=
  get_audio_windows_long_formula waveform7 2 3 (by decide)
